import Mathlib

/-!
# Verification of the twii Telegram relay handlers

Shallow embedding of the three source files:

* `src/api/ip.js` — IP echo endpoint,
* `src/unnamed/part_000` — Variant A relay handler (deterministic hash topic ids),
* `src/unnamed/part_001` — Variant B relay handler (create-or-find forum topics).

JavaScript values are modelled as follows: machine numbers are `Int`/`Nat` with
explicit wrapping where the source wraps (`hash & hash` is ToInt32), absent
values are `Option`, JS objects are string-keyed association lists (prototype
chains are not modelled), thrown exceptions are `Except`, and every remote
HTTP interaction is an explicit oracle argument.  Environment-dependent pieces
that have no pure semantics (`Date.now()`, `toLocaleString`) are parameters of
the embedding.
-/

set_option maxRecDepth 40000

namespace Twii

/-! ## JS number and string primitives -/

/-- JS ToInt32: wrap an integer to the signed 32-bit range, as performed by
`hash & hash` and `<<` in the source. -/
def toInt32 (n : Int) : Int := (n + 2 ^ 31) % 2 ^ 32 - 2 ^ 31

/-- `String.split(sep)` for a one-character separator, on character lists.
`"".split(',')` is `[""]`, matching JS. -/
def splitOnChar (sep : Char) : List Char → List (List Char)
  | [] => [[]]
  | c :: rest =>
    let r := splitOnChar sep rest
    if c = sep then [] :: r
    else
      match r with
      | [] => [[c]]
      | h :: t => (c :: h) :: t

/-- ASCII whitespace recognizer (JS `trim` also strips further Unicode
whitespace; no string in the claims uses those). -/
def isWsChar (c : Char) : Bool := c = ' ' || c = '\t' || c = '\n' || c = '\r'

/-- `String.prototype.trim` on character lists. -/
def trimChars (l : List Char) : List Char :=
  ((l.dropWhile isWsChar).reverse.dropWhile isWsChar).reverse

/-- The trailing/leading-trimmed string of a character list. -/
def trimmed (l : List Char) : String := String.mk (trimChars l)

/-- Substring containment, `a.includes(sub)` in JS. -/
def Contains (s sub : String) : Prop := sub.data <:+: s.data

instance (s sub : String) : Decidable (Contains s sub) := by
  unfold Contains; infer_instance

/-- Boolean form of `Contains`, used inside definitions that mirror
`String.prototype.includes` calls in the source. -/
def strIncludes (s sub : String) : Bool := decide (Contains s sub)

/-- JS `parseInt` on an already-trimmed string: optional sign followed by a
decimal-digit prefix; `none` models `NaN`.  (The `0x` hex prefix of `parseInt`
is not modelled; no claim involves hexadecimal override ids.) -/
def parseIntJS (l : List Char) : Option Int :=
  let core : List Char → Int → Option Int := fun m sign =>
    let ds := m.takeWhile fun c => c.isDigit
    if ds = [] then none
    else some (sign * (ds.foldl (fun a c => a * 10 + (c.toNat - 48)) 0 : Nat))
  match l with
  | '-' :: rest => core rest (-1)
  | '+' :: rest => core rest 1
  | _ => core l 1

/-- Last-write-wins lookup in an association list, modelling JS object
property read after a sequence of assignments. -/
def objGet {α : Type} (fields : List (String × α)) (k : String) : Option α :=
  (fields.reverse.find? fun kv => kv.1 == k).map (·.2)

/-! ## Variant A topic derivation (`src/unnamed/part_000`, lines 44–85) -/

/-- One step of the rolling hash: `hash = ((hash << 5) - hash) + char;
hash = hash & hash` (lines 70–71).  `hash << 5` is ToInt32 of `hash * 32`,
and the final `& hash` is another ToInt32. -/
def hashStep (h : Int) (c : Nat) : Int := toInt32 (toInt32 (h * 32) - h + c)

/-- The rolling hash of `hashIP` before `Math.abs`, folding over the UTF-16
code units of the string (identical to the code points for the BMP strings the
claims involve). -/
def rollHash (l : List Char) : Int := l.foldl (fun h c => hashStep h c.toNat) 0

/-- Modelled from the spec's words: `hash = hash*31 + charCode`, wrapped to
the 32-bit signed range — the spec's description of the same rolling hash,
kept separate to compare against the source form `rollHash`. -/
def rollHashSpec (l : List Char) : Int := l.foldl (fun h c => toInt32 (h * 31 + c.toNat)) 0

/-- `hashIP` (lines 66–74): absolute value of the rolling hash. -/
def hashIP (ip : String) : Nat := (rollHash ip.data).natAbs

/-- The hash-derived topic id (line 79): `(hashValue % 900000) + 100000`. -/
def hashTopicId (ip : String) : Int := ((hashIP ip % 900000 + 100000 : Nat) : Int)

/-- The own property names of `Object.prototype`.  `mappings` is a plain
object literal, so a read of any of these with no own entry yields the
inherited member — a function, or `Object.prototype` itself for
`__proto__` — and every one of them is truthy. -/
def objectPrototypeKeys : List String :=
  ["constructor", "hasOwnProperty", "isPrototypeOf", "propertyIsEnumerable",
   "toLocaleString", "toString", "valueOf", "__proto__",
   "__defineGetter__", "__defineSetter__", "__lookupGetter__", "__lookupSetter__"]

/-- Parse the `IP_TOPIC_MAP` environment string (lines 46–56): split on
commas, split each entry on `:`, trim both parts, keep entries whose two
parts are nonempty, `parseInt` the id (`none` models a stored `NaN`).
Later entries overwrite earlier ones via `objGet`.  The assignment
`mappings[ipAddr] = parseInt(topicId)` creates an own property for every
key except `__proto__`, where it invokes the inherited accessor of
`Object.prototype` and, given a number, is a silent no-op; the other
prototype members are writable data properties, so assigning to their names
shadows them with an own entry. -/
def parseMappings (envMap : String) : List (String × Option Int) :=
  if envMap = "" then []
  else
    (splitOnChar ',' envMap.data).foldl
      (fun acc m =>
        match (splitOnChar ':' m).map trimChars with
        | ipAddr :: topicId :: _ =>
          if ipAddr ≠ [] ∧ topicId ≠ [] then
            if String.mk ipAddr = "__proto__" then acc
            else acc ++ [(String.mk ipAddr, parseIntJS topicId)]
          else acc
        | _ => acc)
      []

/-- What the property read `mappings[ip]` evaluates to. -/
inductive PropVal where
  | num (v : Int)
  | nan
  | inherited
  | absent
deriving Repr, DecidableEq

/-- Property read on a plain object with own entries `own`: an own entry
shadows the prototype; otherwise the read walks the chain to
`Object.prototype` and yields the inherited member for its twelve property
names; only then is the result `undefined`. -/
def objReadProto (own : List (String × Option Int)) (k : String) : PropVal :=
  match objGet own k with
  | some (some v) => .num v
  | some none => .nan
  | none => if objectPrototypeKeys.contains k then .inherited else .absent

/-- The value `getTopicIdForIP` returns: a number (overridden id or hash
id), or the inherited `Object.prototype` member named by the address, leaked
through the truthiness test. -/
inductive TopicId where
  | num (v : Int)
  | inherited (k : String)
deriving Repr, DecidableEq

/-- `getTopicIdForIP` (lines 44–85).  `if (mappings[ip])` is a truthiness
test on the prototype-chain read: an own `0` or `NaN` falls through to the
hash, while for an address naming an `Object.prototype` member with no own
entry the test hits the (truthy) inherited member and the function returns
it as-is. -/
def getTopicIdForIP (envMap ip : String) : TopicId :=
  match objReadProto (parseMappings envMap) ip with
  | .num v => if v ≠ 0 then .num v else .num (hashTopicId ip)
  | .nan => .num (hashTopicId ip)
  | .inherited => .inherited ip
  | .absent => .num (hashTopicId ip)

/-- The truthiness test `if (mappings[ip])` fails: the prototype-chain read
yields `undefined`, an own `NaN`, or an own `0`.  (It does not fail for an
address naming an inherited `Object.prototype` member.) -/
def overrideMiss (envMap ip : String) : Bool :=
  match objReadProto (parseMappings envMap) ip with
  | .num v => v == 0
  | .nan => true
  | .inherited => false
  | .absent => true

/-! ### Arithmetic facts about the rolling hash -/

lemma toInt32_add_congr (a b : Int) : toInt32 (toInt32 a + b) = toInt32 (a + b) := by
  unfold toInt32
  omega

lemma hashStep_eq_spec (h : Int) (c : Nat) : hashStep h c = toInt32 (h * 31 + c) := by
  have := toInt32_add_congr (h * 32) (-h + c)
  unfold hashStep
  calc toInt32 (toInt32 (h * 32) - h + c)
      = toInt32 (toInt32 (h * 32) + (-h + c)) := by ring_nf
    _ = toInt32 (h * 32 + (-h + c)) := this
    _ = toInt32 (h * 31 + c) := by ring_nf

lemma rollHash_eq_spec_aux (l : List Char) :
    ∀ h : Int, l.foldl (fun h c => hashStep h c.toNat) h
      = l.foldl (fun h c => toInt32 (h * 31 + c.toNat)) h := by
  induction l with
  | nil => intro h; rfl
  | cons c t ih => intro h; simp only [List.foldl_cons, hashStep_eq_spec, ih]

lemma rollHash_eq_spec (l : List Char) : rollHash l = rollHashSpec l :=
  rollHash_eq_spec_aux l 0

lemma hashTopicId_range (ip : String) :
    100000 ≤ hashTopicId ip ∧ hashTopicId ip ≤ 999999 := by
  unfold hashTopicId
  have h := Nat.mod_lt (hashIP ip) (show 0 < 900000 by norm_num)
  constructor <;> push_cast <;> omega

/-! ## JS values -/

mutual
/-- A JSON-like JS value.  `undefined` is represented by `Option.none` at use
sites, never as a `JsVal`.  Arrays and objects carry their own list types so
that every recursion below is structural and computable. -/
inductive JsVal where
  | jnull
  | jbool (b : Bool)
  | jnum (n : Int)
  | jstr (s : String)
  | jarr (xs : JsArr)
  | jobj (fields : JsObj)
deriving Repr, DecidableEq

/-- The element list of a JS array value. -/
inductive JsArr where
  | nil
  | cons (hd : JsVal) (tl : JsArr)
deriving Repr, DecidableEq

/-- The (ordered) property list of a JS object value. -/
inductive JsObj where
  | nil
  | cons (k : String) (v : JsVal) (tl : JsObj)
deriving Repr, DecidableEq
end

/-- Property lookup in an object's property list; a later assignment to the
same key wins, as in JS. -/
def objProp : JsObj → String → Option JsVal
  | .nil, _ => none
  | .cons k2 v tl, k =>
    match objProp tl k with
    | some r => some r
    | none => if k2 == k then some v else none

/-- JS truthiness of a defined value. -/
def jsTruthy : JsVal → Bool
  | .jnull => false
  | .jbool b => b
  | .jnum n => n != 0
  | .jstr s => s != ""
  | .jarr _ => true
  | .jobj _ => true

/-- Property read `v[k]`; `none` is `undefined` (also for non-object
receivers, whose primitive-wrapper properties are not modelled). -/
def getField (v : JsVal) (k : String) : Option JsVal :=
  match v with
  | .jobj fields => objProp fields k
  | _ => none

mutual
/-- JS string coercion `${x}` of a defined value. -/
def jsDisplay : JsVal → String
  | .jnull => "null"
  | .jbool b => if b then "true" else "false"
  | .jnum n => toString n
  | .jstr s => s
  | .jarr xs => jsDisplayArr xs
  | .jobj _ => "[object Object]"

/-- `Array.prototype.toString`: elements joined by commas, with `null`
rendered empty inside a join. -/
def jsDisplayArr : JsArr → String
  | .nil => ""
  | .cons .jnull .nil => ""
  | .cons hd .nil => jsDisplay hd
  | .cons .jnull tl => "," ++ jsDisplayArr tl
  | .cons hd tl => jsDisplay hd ++ "," ++ jsDisplayArr tl
end

/-- `x || d` for a possibly-undefined value with default `d`. -/
def jsOrVal (x : Option JsVal) (d : JsVal) : JsVal :=
  match x with
  | some a => if jsTruthy a then a else d
  | none => d

/-- `${v[k] || 'N/A'}`, the fallback interpolation used by both formatters. -/
def fieldOrNA (v : JsVal) (k : String) : String :=
  match getField v k with
  | some x => if jsTruthy x then jsDisplay x else "N/A"
  | none => "N/A"

/-! ## JSON serialization (`JSON.stringify(·, null, 2)`) -/

/-- Escapes inside a JSON string literal (`\b`, `\f` and `\uXXXX` are not
modelled; no claim exercises them). -/
def jsonEscapeChar (c : Char) : List Char :=
  if c = '"' then ['\\', '"']
  else if c = '\\' then ['\\', '\\']
  else if c = '\n' then ['\\', 'n']
  else if c = '\t' then ['\\', 't']
  else if c = '\r' then ['\\', 'r']
  else [c]

def jsonQuote (s : String) : String :=
  "\"" ++ String.mk (s.data.foldr (fun c acc => jsonEscapeChar c ++ acc) []) ++ "\""

/-- Two spaces of indentation per nesting level. -/
def indentSp : Nat → String
  | 0 => ""
  | n + 1 => indentSp n ++ "  "

mutual
/-- `JSON.stringify(v, null, 2)` at nesting depth `d`; object keys appear in
insertion order, as `JSON.parse` produces them. -/
def jsonStringifyAt : Nat → JsVal → String
  | _, .jnull => "null"
  | _, .jbool b => if b then "true" else "false"
  | _, .jnum n => toString n
  | _, .jstr s => jsonQuote s
  | _, .jarr .nil => "[]"
  | d, .jarr xs =>
    "[\n" ++ String.intercalate ",\n" (jsonLinesArr d xs) ++ "\n" ++ indentSp d ++ "]"
  | _, .jobj .nil => "\x7b\x7d"
  | d, .jobj fs =>
    "\x7b\n" ++ String.intercalate ",\n" (jsonLinesObj d fs) ++ "\n" ++ indentSp d ++ "\x7d"

def jsonLinesArr : Nat → JsArr → List String
  | _, .nil => []
  | d, .cons hd tl => (indentSp (d + 1) ++ jsonStringifyAt (d + 1) hd) :: jsonLinesArr d tl

def jsonLinesObj : Nat → JsObj → List String
  | _, .nil => []
  | d, .cons k v tl =>
    (indentSp (d + 1) ++ jsonQuote k ++ ": " ++ jsonStringifyAt (d + 1) v) :: jsonLinesObj d tl
end

def jsonStringify (v : JsVal) : String := jsonStringifyAt 0 v

/-! ## JSON parsing (`JSON.parse`) -/

def skipWs (l : List Char) : List Char := l.dropWhile isWsChar

/-- Decimal digit prefix of a number literal (fractions and exponents are not
modelled; no claim involves non-integer JSON numbers). -/
def parseDigits (l : List Char) : Option (Nat × List Char) :=
  let ds := l.takeWhile fun c => c.isDigit
  if ds = [] then none
  else some (ds.foldl (fun a c => a * 10 + (c.toNat - 48)) 0, l.drop ds.length)

/-- Body of a JSON string literal after the opening quote. -/
def parseJsonStr : List Char → List Char → Option (String × List Char)
  | [], _ => none
  | '"' :: rest, acc => some (String.mk acc.reverse, rest)
  | '\\' :: c :: rest, acc =>
    if c = '"' then parseJsonStr rest ('"' :: acc)
    else if c = '\\' then parseJsonStr rest ('\\' :: acc)
    else if c = '/' then parseJsonStr rest ('/' :: acc)
    else if c = 'n' then parseJsonStr rest ('\n' :: acc)
    else if c = 't' then parseJsonStr rest ('\t' :: acc)
    else if c = 'r' then parseJsonStr rest ('\r' :: acc)
    else none
  | ['\\'], _ => none
  | c :: rest, acc => parseJsonStr rest (c :: acc)

mutual

/-- Fuel-indexed recursive-descent JSON value parser. -/
def parseJsonF : Nat → List Char → Option (JsVal × List Char)
  | 0, _ => none
  | f + 1, l =>
    match skipWs l with
    | 'n' :: 'u' :: 'l' :: 'l' :: rest => some (.jnull, rest)
    | 't' :: 'r' :: 'u' :: 'e' :: rest => some (.jbool true, rest)
    | 'f' :: 'a' :: 'l' :: 's' :: 'e' :: rest => some (.jbool false, rest)
    | '"' :: rest =>
      match parseJsonStr rest [] with
      | some (s, rest2) => some (.jstr s, rest2)
      | none => none
    | '[' :: rest =>
      (match skipWs rest with
       | ']' :: rest2 => some (.jarr .nil, rest2)
       | _ =>
         match parseJsonItems f rest with
         | some (xs, rest2) => some (.jarr xs, rest2)
         | none => none)
    | '\x7b' :: rest =>
      (match skipWs rest with
       | '\x7d' :: rest2 => some (.jobj .nil, rest2)
       | _ =>
         match parseJsonFields f rest with
         | some (fs, rest2) => some (.jobj fs, rest2)
         | none => none)
    | '-' :: rest =>
      (match parseDigits rest with
       | some (n, rest2) => some (.jnum (-(n : Int)), rest2)
       | none => none)
    | l2 =>
      match parseDigits l2 with
      | some (n, rest2) => some (.jnum (n : Int), rest2)
      | none => none

/-- Comma-separated array items up to `]`. -/
def parseJsonItems : Nat → List Char → Option (JsArr × List Char)
  | 0, _ => none
  | f + 1, l =>
    match parseJsonF f l with
    | none => none
    | some (v, rest) =>
      match skipWs rest with
      | ',' :: rest2 =>
        (match parseJsonItems f rest2 with
         | some (xs, rest3) => some (.cons v xs, rest3)
         | none => none)
      | ']' :: rest2 => some (.cons v .nil, rest2)
      | _ => none

/-- Comma-separated object members up to the closing brace. -/
def parseJsonFields : Nat → List Char → Option (JsObj × List Char)
  | 0, _ => none
  | f + 1, l =>
    match skipWs l with
    | '"' :: rest =>
      (match parseJsonStr rest [] with
       | none => none
       | some (k, rest2) =>
         match skipWs rest2 with
         | ':' :: rest3 =>
           (match parseJsonF f rest3 with
            | none => none
            | some (v, rest4) =>
              match skipWs rest4 with
              | ',' :: rest5 =>
                (match parseJsonFields f rest5 with
                 | some (fs, rest6) => some (.cons k v fs, rest6)
                 | none => none)
              | '\x7d' :: rest5 => some (.cons k v .nil, rest5)
              | _ => none)
         | _ => none)
    | _ => none

end

/-- `JSON.parse`: `none` models a thrown `SyntaxError`. -/
def jsonParse (s : String) : Option JsVal :=
  match parseJsonF (s.data.length + 1) s.data with
  | some (v, rest) => if skipWs rest = [] then some v else none
  | none => none

/-! ## Message formatting

Both formatters interpolate two environment-dependent quantities that have no
pure semantics and are therefore parameters of the embedding: `fmtTime`
models `new Date(·).toLocaleString('nb-NO', ...)` applied to the JS value
chosen for the timestamp, and `nowMs`/`nowIso` model `Date.now()` /
`new Date().toISOString()`. -/

/-- The ten `case` labels of the action `switch` in both handlers. -/
def recognizedActions : List String :=
  ["bank_selected", "phone_entered", "verification_code_entered",
   "verification_code_resend", "auth_method_selected", "pin_attempt_failed",
   "pin_max_attempts_reached", "pin_verified", "bank_app_confirmed", "bank_login"]

/-- The message template `switch` of Variant A
(`src/unnamed/part_000`, lines 111–257). -/
def formatMessageA (v : JsVal) (clientIp : String) (fmtTime : JsVal → String)
    (nowIso : String) (nowMs : Int) : String :=
  let actionV := jsOrVal (getField v "action") (.jstr "unknown")
  let ipInfo := "🌐 *IP:* " ++ clientIp
  let stamp := "📅 *Tidspunkt:* " ++ fmtTime (jsOrVal (getField v "timestamp") (.jstr nowIso))
  let tail := "\n\n---\nID: " ++ toString nowMs
  if actionV = .jstr "bank_selected" then
    "🏦 *Bank Valgt*\n\n*Bank:* " ++ fieldOrNA v "bank" ++ "\n" ++ ipInfo ++ "\n"
      ++ stamp ++ tail
  else if actionV = .jstr "phone_entered" then
    "📱 *Telefonnummer Oppgitt*\n\n🏦 *Bank:* " ++ fieldOrNA v "bank" ++ "\n📱 *Telefon:* "
      ++ fieldOrNA v "phone" ++ "\n" ++ ipInfo ++ "\n" ++ stamp ++ tail
  else if actionV = .jstr "verification_code_entered" then
    "✅ *Verifiseringskode Oppgitt*\n\n🏦 *Bank:* " ++ fieldOrNA v "bank" ++ "\n📱 *Telefon:* "
      ++ fieldOrNA v "phone" ++ "\n🔢 *Kode:* " ++ fieldOrNA v "verification_code" ++ "\n"
      ++ ipInfo ++ "\n" ++ stamp ++ tail
  else if actionV = .jstr "verification_code_resend" then
    "🔄 *Verifiseringskode Sendt På Nytt*\n\n🏦 *Bank:* " ++ fieldOrNA v "bank"
      ++ "\n📱 *Telefon:* " ++ fieldOrNA v "phone" ++ "\n" ++ ipInfo ++ "\n" ++ stamp ++ tail
  else if actionV = .jstr "auth_method_selected" then
    "🔐 *Autentiseringsmetode Valgt*\n\n🏦 *Bank:* " ++ fieldOrNA v "bank" ++ "\n🔑 *Metode:* "
      ++ (if getField v "auth_method" = some (.jstr "card-reader") then "Card Reader"
          else "Bank App")
      ++ "\n" ++ ipInfo ++ "\n" ++ stamp ++ tail
  else if actionV = .jstr "pin_attempt_failed" then
    "❌ *PIN Forsøk Feilet*\n\n🏦 *Bank:* " ++ fieldOrNA v "bank" ++ "\n📱 *Telefon:* "
      ++ fieldOrNA v "phone" ++ "\n🔢 *PIN Forsøk:* " ++ fieldOrNA v "pin_attempt"
      ++ "\n📊 *Forsøk #" ++ fieldOrNA v "attempt_number" ++ "*\n⚠️ *Gjenstående:* "
      ++ fieldOrNA v "remaining_attempts" ++ " forsøk\n" ++ ipInfo ++ "\n" ++ stamp ++ tail
  else if actionV = .jstr "pin_max_attempts_reached" then
    "🚫 *Maks PIN Forsøk Nådd*\n\n🏦 *Bank:* " ++ fieldOrNA v "bank" ++ "\n📱 *Telefon:* "
      ++ fieldOrNA v "phone" ++ "\n⚠️ *Status:* Alle forsøk brukt opp\n" ++ ipInfo ++ "\n"
      ++ stamp ++ tail
  else if actionV = .jstr "pin_verified" then
    "✅ *PIN Bekreftet*\n\n🏦 *Bank:* " ++ fieldOrNA v "bank" ++ "\n📱 *Telefon:* "
      ++ fieldOrNA v "phone" ++ "\n🔢 *PIN:* " ++ fieldOrNA v "pin" ++ "\n" ++ ipInfo ++ "\n"
      ++ stamp ++ tail
  else if actionV = .jstr "bank_app_confirmed" then
    "📱 *Bank App Bekreftet*\n\n🏦 *Bank:* " ++ fieldOrNA v "bank" ++ "\n📱 *Telefon:* "
      ++ fieldOrNA v "phone" ++ "\n" ++ ipInfo ++ "\n" ++ stamp ++ tail
  else if actionV = .jstr "bank_login" then
    "🔐 *Ny TWINT Registrering*\n\n🏦 *Bank:* " ++ fieldOrNA v "bank" ++ "\n📱 *Telefon:* "
      ++ fieldOrNA v "phone" ++ "\n👤 *Brukernavn:* " ++ fieldOrNA v "bank_username"
      ++ "\n🔑 *Passord:* " ++ fieldOrNA v "bank_password" ++ "\n" ++ ipInfo ++ "\n"
      ++ stamp ++ tail
  else
    "📝 *Ukjent Handling*\n\n*Action:* " ++ jsDisplay actionV ++ "\n*Data:* "
      ++ jsonStringify v ++ "\n" ++ stamp ++ tail

/-- `formatTelegramMessage` of Variant B (`src/unnamed/part_001`,
lines 196–291). -/
def formatTelegramMessage (data : JsVal) (isNewIPAddress : Bool)
    (fmtTime : JsVal → String) (nowMs : Int) : String :=
  let actionF := getField data "action"
  let header :=
    if isNewIPAddress then
      "🆕 <b>Ny bruker opprettet</b>\n📍 <b>IP-adresse:</b> <code>"
        ++ (match getField data "ip_adresse" with
            | some x => jsDisplay x
            | none => "undefined")
        ++ "</code>\n━━━━━━━━━━━━━━━━━━━━\n\n"
    else ""
  let body :=
    if actionF = some (.jstr "bank_selected") then
      "🏦 <b>Bank Valgt</b>\n📋 <b>Bank:</b> " ++ fieldOrNA data "bank" ++ "\n"
    else if actionF = some (.jstr "phone_entered") then
      "📱 <b>Telefonnummer Oppgitt</b>\n🏦 <b>Bank:</b> " ++ fieldOrNA data "bank"
        ++ "\n📱 <b>Telefon:</b> <code>" ++ fieldOrNA data "phone" ++ "</code>\n"
    else if actionF = some (.jstr "verification_code_entered") then
      "✅ <b>Verifiseringskode Oppgitt</b>\n🏦 <b>Bank:</b> " ++ fieldOrNA data "bank"
        ++ "\n📱 <b>Telefon:</b> <code>" ++ fieldOrNA data "phone"
        ++ "</code>\n🔢 <b>Kode:</b> <code>" ++ fieldOrNA data "verification_code"
        ++ "</code>\n"
    else if actionF = some (.jstr "verification_code_resend") then
      "🔄 <b>Verifiseringskode Sendt På Nytt</b>\n🏦 <b>Bank:</b> " ++ fieldOrNA data "bank"
        ++ "\n📱 <b>Telefon:</b> <code>" ++ fieldOrNA data "phone" ++ "</code>\n"
    else if actionF = some (.jstr "auth_method_selected") then
      "🔐 <b>Autentiseringsmetode Valgt</b>\n🏦 <b>Bank:</b> " ++ fieldOrNA data "bank"
        ++ "\n🔑 <b>Metode:</b> "
        ++ (if getField data "auth_method" = some (.jstr "card-reader") then "Card Reader"
            else "Bank App")
        ++ "\n"
    else if actionF = some (.jstr "pin_attempt_failed") then
      "❌ <b>PIN Forsøk Feilet</b>\n🏦 <b>Bank:</b> " ++ fieldOrNA data "bank"
        ++ "\n📱 <b>Telefon:</b> <code>" ++ fieldOrNA data "phone"
        ++ "</code>\n🔢 <b>PIN Forsøk:</b> <code>" ++ fieldOrNA data "pin_attempt"
        ++ "</code>\n"
        ++ (match getField data "attempt_number" with
            | some x => if jsTruthy x then "📊 <b>Forsøk #" ++ jsDisplay x ++ "</b>\n" else ""
            | none => "")
        ++ (match getField data "remaining_attempts" with
            | some x => "⚠️ <b>Gjenstående:</b> " ++ jsDisplay x ++ " forsøk\n"
            | none => "")
    else if actionF = some (.jstr "pin_max_attempts_reached") then
      "🚫 <b>Maks PIN Forsøk Nådd</b>\n🏦 <b>Bank:</b> " ++ fieldOrNA data "bank"
        ++ "\n📱 <b>Telefon:</b> <code>" ++ fieldOrNA data "phone"
        ++ "</code>\n⚠️ <b>Status:</b> Alle forsøk brukt opp\n"
    else if actionF = some (.jstr "pin_verified") then
      "✅ <b>PIN Bekreftet</b>\n🏦 <b>Bank:</b> " ++ fieldOrNA data "bank"
        ++ "\n📱 <b>Telefon:</b> <code>" ++ fieldOrNA data "phone"
        ++ "</code>\n🔢 <b>PIN:</b> <code>" ++ fieldOrNA data "pin" ++ "</code>\n"
    else if actionF = some (.jstr "bank_app_confirmed") then
      "📱 <b>Bank App Bekreftet</b>\n🏦 <b>Bank:</b> " ++ fieldOrNA data "bank"
        ++ "\n📱 <b>Telefon:</b> <code>" ++ fieldOrNA data "phone" ++ "</code>\n"
    else if actionF = some (.jstr "bank_login") then
      "🔐 <b>Ny TWINT Registrering</b>\n🏦 <b>Bank:</b> " ++ fieldOrNA data "bank"
        ++ "\n📱 <b>Telefon:</b> <code>" ++ fieldOrNA data "phone"
        ++ "</code>\n👤 <b>Brukernavn:</b> <code>" ++ fieldOrNA data "bank_username"
        ++ "</code>\n🔑 <b>Passord:</b> <code>" ++ fieldOrNA data "bank_password"
        ++ "</code>\n"
    else
      "📝 <b>Ukjent Handling</b>\n🔧 <b>Action:</b> " ++ fieldOrNA data "action" ++ "\n"
  header ++ body
    ++ "\n🌐 <b>IP:</b> <code>" ++ fieldOrNA data "ip_adresse" ++ "</code>\n⏰ <b>Tid:</b> "
    ++ fmtTime (jsOrVal (getField data "timestamp") (.jnum nowMs))

/-! ### Substring facts used for the formatter claims -/

lemma string_data_append (a b : String) : (a ++ b).data = a.data ++ b.data :=
  String.data_append a b

lemma contains_append_left {a sub : String} (b : String) (h : Contains a sub) :
    Contains (a ++ b) sub := by
  obtain ⟨s, t, hst⟩ := h
  exact ⟨s, t ++ b.data, by rw [string_data_append, ← hst]; simp⟩

lemma contains_append_right {b sub : String} (a : String) (h : Contains b sub) :
    Contains (a ++ b) sub := by
  obtain ⟨s, t, hst⟩ := h
  exact ⟨a.data ++ s, t, by rw [string_data_append, ← hst]; simp⟩

/-- A string occurs in any concatenation having it as the second factor. -/
lemma contains_append_self (a sub : String) : Contains (a ++ sub) sub :=
  contains_append_right a ⟨[], [], by simp⟩

/-! ## Client address derivation -/

/-- The request headers consulted by the three derivations; `none` is an
absent header (and an absent `req.connection` for `remoteAddress`). -/
structure Headers where
  xff : Option String := none
  xRealIp : Option String := none
  remoteAddress : Option String := none
deriving Repr, DecidableEq

/-- First comma-separated value of a forwarded-for header, trimmed:
`s.split(',')[0].trim()`. -/
def firstForwarded (s : String) : String :=
  match splitOnChar ',' s.data with
  | [] => ""
  | h :: _ => trimmed h

/-- The shared fallback chain
`req.headers['x-real-ip'] || req.connection?.remoteAddress || sentinel`
(each `||` tests JS truthiness, so an empty header string falls through). -/
def ipFallback (h : Headers) (sentinel : String) : String :=
  match h.xRealIp with
  | some r =>
    if r ≠ "" then r
    else
      match h.remoteAddress with
      | some a => if a ≠ "" then a else sentinel
      | none => sentinel
  | none =>
    match h.remoteAddress with
    | some a => if a ≠ "" then a else sentinel
    | none => sentinel

/-- `ip` in `src/api/ip.js`, lines 21–24: optional chaining applies
`split/trim` whenever the header is present, and the result participates in
the `||` chain by truthiness. -/
def ipOfIpEndpoint (h : Headers) : String :=
  match h.xff with
  | some s => if firstForwarded s ≠ "" then firstForwarded s else ipFallback h "unknown"
  | none => ipFallback h "unknown"

/-- `clientIp` in `src/unnamed/part_000`, lines 37–40: textually the same
expression as in `src/api/ip.js`. -/
def clientIpA (h : Headers) : String :=
  match h.xff with
  | some s => if firstForwarded s ≠ "" then firstForwarded s else ipFallback h "unknown"
  | none => ipFallback h "unknown"

/-- `ip_adresse` in `src/unnamed/part_001`, lines 337–340: a conditional on
the truthiness of the whole header, with sentinel `"Ukjent IP"`. -/
def ipAdresseB (h : Headers) : String :=
  match h.xff with
  | some s => if s ≠ "" then firstForwarded s else ipFallback h "Ukjent IP"
  | none => ipFallback h "Ukjent IP"

/-! ## Variant B topic resolution (`src/unnamed/part_001`, lines 11–158) -/

/-- One topic as returned by `getForumTopics`. -/
structure ForumTopic where
  name : String
  threadId : Int
deriving Repr, DecidableEq

/-- Outcome of one `getForumTopics` fetch at a given offset. -/
inductive Page where
  | netError
  | notOk
  | malformed
  | topics (ts : List ForumTopic)
deriving Repr, DecidableEq

/-- `const limit = 100` (line 21). -/
def pageSize : Nat := 100

/-- The paging loop of `findExistingTopicForIP` (lines 25–69), with the
number of remaining iterations as fuel; `none` means the budget was
exhausted (the JS loop would still be running).  A thrown fetch
(`Page.netError`) is caught at line 72 and yields `null`; a non-ok response
returns `null` at line 44; a falsy `result.ok`/`result.result`/`…topics`
clears `hasMore` and falls out to `return null`. -/
def findLoop (pg : Nat → Page) (topicName : String) : Nat → Nat → Option (Option Int)
  | 0, _ => none
  | fuel + 1, offset =>
    match pg offset with
    | .netError => some none
    | .notOk => some none
    | .malformed => some none
    | .topics ts =>
      match ts.find? (fun t => t.name == topicName) with
      | some t => some (some t.threadId)
      | none =>
        if ts.length < pageSize then some none
        else findLoop pg topicName fuel (offset + pageSize)

/-- `findExistingTopicForIP` (lines 17–76), searching for
`const topicName = "IP: " + ipAddress`. -/
def findExistingTopicForIP (pg : Nat → Page) (ip : String) (fuel : Nat) :
    Option (Option Int) :=
  findLoop pg ("IP: " ++ ip) fuel 0

/-- Outcome of the `createForumTopic` fetch: a successful response carrying
`result.message_thread_id`, an error body with `description`, `error_code`
and the response `statusText`, or a thrown network error. -/
inductive CreateResp where
  | ok (threadId : Int)
  | err (desc : Option String) (errorCode : Option Int) (statusText : String)
  | netError (msg : String)
deriving Repr, DecidableEq

def topicsUnsupportedMsg : String :=
  "Topics ikke støttet - sjekk at gruppen er en supergruppe med topics aktivert"

/-- `errorData.description && errorData.description.includes('already exists')`. -/
def descHasExists (desc : Option String) : Bool :=
  match desc with
  | some d => d != "" && strIncludes d "already exists"
  | none => false

/-- `errorData.description || response.statusText`. -/
def jsOrStr (a : Option String) (b : String) : String :=
  match a with
  | some s => if s ≠ "" then s else b
  | none => b

/-- `if (existingTopicId)`: the found id participates by truthiness, so a
thread id `0` does not count as found (lines 90, 107, 143). -/
def truthyId : Option Int → Option Int
  | some t => if t = 0 then none else some t
  | none => none

/-- `createTopicForIP` (lines 121–158): `Except.error` is the thrown error
message; the second component counts the `findExistingTopicForIP` calls made
on the way.  The outer `none` again means a find loop exhausted its fuel. -/
def createTopicForIP (pg : Nat → Page) (cr : CreateResp) (ip : String) (fuel : Nat) :
    Option (Except String Int × Nat) :=
  match cr with
  | .ok tid => some (.ok tid, 0)
  | .netError m => some (.error m, 0)
  | .err desc code stx =>
    if descHasExists desc then
      match findExistingTopicForIP pg ip fuel with
      | none => none
      | some r =>
        match truthyId r with
        | some tid => some (.ok tid, 1)
        | none =>
          if code = some 400 then some (.error topicsUnsupportedMsg, 1)
          else some (.error ("Kunne ikke opprette topic: " ++ jsOrStr desc stx), 1)
    else
      if code = some 400 then some (.error topicsUnsupportedMsg, 0)
      else some (.error ("Kunne ikke opprette topic: " ++ jsOrStr desc stx), 0)

/-- The process-lifetime `ipToTopicMap` (line 11), with `objGet`/append as
`Map.get`/`Map.set`. -/
abbrev IpMap := List (String × Int)

def mapGet (m : IpMap) (k : String) : Option Int := objGet m k

def mapSet (m : IpMap) (k : String) (v : Int) : IpMap := m ++ [(k, v)]

/-- Remote-call counters accumulated during one resolution. -/
structure Counts where
  find : Nat
  create : Nat
deriving Repr, DecidableEq

/-- The remote responses one resolution can consume: `pages i off` is the
page at offset `off` during the `i`-th `getForumTopics` loop (the initial
find, the re-find inside `createTopicForIP`, and the re-find in the catch
handler), and `create` the `createForumTopic` outcome. -/
structure TgOracle where
  pages : Nat → Nat → Page
  create : CreateResp

/-- `getOrCreateTopicForIP` (lines 82–116): cache check, remote find, create
with `already exists` fallback, returning the resolved id (or `none` for the
null fallback), the updated map and the remote-call counts. -/
def getOrCreateTopicForIP (o : TgOracle) (st : IpMap) (ip : String) (fuel : Nat) :
    Option (Option Int × IpMap × Counts) :=
  match mapGet st ip with
  | some tid => some (some tid, st, ⟨0, 0⟩)
  | none =>
    match findExistingTopicForIP (o.pages 0) ip fuel with
    | none => none
    | some r0 =>
      match truthyId r0 with
      | some tid => some (some tid, mapSet st ip tid, ⟨1, 0⟩)
      | none =>
        match createTopicForIP (o.pages 1) o.create ip fuel with
        | none => none
        | some (.ok tid, fc) => some (some tid, mapSet st ip tid, ⟨1 + fc, 1⟩)
        | some (.error e, fc) =>
          if e != "" && strIncludes e "already exists" then
            match findExistingTopicForIP (o.pages 2) ip fuel with
            | none => none
            | some r2 =>
              match truthyId r2 with
              | some tid => some (some tid, mapSet st ip tid, ⟨1 + fc + 1, 1⟩)
              | none => some (none, st, ⟨1 + fc + 1, 1⟩)
          else some (none, st, ⟨1 + fc, 1⟩)

/-! ## HTTP handlers -/

/-- `process.env` as read by the handlers. -/
structure Env where
  botToken : Option String := none
  chatId : Option String := none
  ipTopicMap : Option String := none
deriving Repr, DecidableEq

/-- Truthiness of a possibly-unset environment string (`!BOT_TOKEN`). -/
def envTruthy : Option String → Bool
  | some s => s != ""
  | none => false

/-- The request body as the handler sees it: absent, an unparsed string, or
a value the platform already parsed. -/
inductive ReqBody where
  | absent
  | raw (s : String)
  | parsed (v : JsVal)
deriving Repr, DecidableEq

structure Req where
  method : String
  headers : Headers := {}
  body : ReqBody := .absent
deriving Repr, DecidableEq

/-- An HTTP response: status code and JSON body (`none` for a bare
`res.end()`). -/
structure Resp where
  status : Nat
  body : Option JsVal
deriving Repr, DecidableEq

def obj1 (k : String) (v : JsVal) : JsVal := .jobj (.cons k v .nil)

def obj2 (k1 : String) (v1 : JsVal) (k2 : String) (v2 : JsVal) : JsVal :=
  .jobj (.cons k1 v1 (.cons k2 v2 .nil))

/-- The body-normalization block both handlers share (part_000 lines 92–109,
part_001 lines 317–334): a string body is `JSON.parse`d, a parse failure is
a 400 (the environment-specific `parseError.message` is modelled by the
fixed string `"SyntaxError"`; no claim depends on it), and `Except.ok none`
is an undefined body. -/
def resolveUserData (b : ReqBody) : Except Resp (Option JsVal) :=
  match b with
  | .absent => .ok none
  | .parsed v => .ok (some v)
  | .raw s =>
    match jsonParse s with
    | some v => .ok (some v)
    | none =>
      .error ⟨400, some (obj2 "error" (.jstr "Invalid JSON in request body")
        "message" (.jstr "SyntaxError"))⟩

/-- `v[k]` is defined and truthy. -/
def fieldTruthy (v : JsVal) (k : String) : Bool :=
  match getField v k with
  | some x => jsTruthy x
  | none => false

/-- Outcome of the `sendMessage` fetch in part_000: a thrown network error,
a non-JSON content type with the raw text, a JSON content type with empty
text, or a JSON body with the transport-level `response.ok`. -/
inductive SendRespA where
  | netError (msg : String)
  | nonJson (text : String)
  | jsonEmpty (httpOk : Bool)
  | json (httpOk : Bool) (body : JsVal)
deriving Repr, DecidableEq

/-- `telegramData.description || telegramData.error_code || 'Unknown error'`
(part_000 line 310). -/
def detailsOf (body : JsVal) : JsVal :=
  match getField body "description" with
  | some d =>
    if jsTruthy d then d
    else
      match getField body "error_code" with
      | some c => if jsTruthy c then c else .jstr "Unknown error"
      | none => .jstr "Unknown error"
  | none =>
    match getField body "error_code" with
    | some c => if jsTruthy c then c else .jstr "Unknown error"
    | none => .jstr "Unknown error"

/-- The 200 body of part_000 (lines 322–326): `telegram_message_id` is
`telegramData.result?.message_id`, omitted from the JSON when undefined. -/
def successBodyA (tg : JsVal) : JsVal :=
  match
    (match getField tg "result" with
     | some r => getField r "message_id"
     | none => none) with
  | some mid =>
    .jobj (.cons "success" (.jbool true)
      (.cons "message" (.jstr "Data sent to Telegram successfully")
        (.cons "telegram_message_id" mid .nil)))
  | none => obj2 "success" (.jbool true) "message" (.jstr "Data sent to Telegram successfully")

/-- The Variant A handler (`src/unnamed/part_000`).  The result is the
response together with the number of outbound Telegram calls performed. -/
def handlerA (env : Env) (req : Req) (fmtTime : JsVal → String) (nowIso : String)
    (nowMs : Int) (tg : SendRespA) : Resp × Nat :=
  if req.method = "OPTIONS" then (⟨200, none⟩, 0)
  else if req.method ≠ "POST" then
    (⟨405, some (obj1 "error" (.jstr "Method not allowed"))⟩, 0)
  else if !(envTruthy env.botToken && envTruthy env.chatId) then
    (⟨500, some (obj2 "error" (.jstr "Telegram credentials not configured")
      "message"
      (.jstr "TELEGRAM_BOT_TOKEN and TELEGRAM_CHAT_ID must be set in environment variables"))⟩,
     0)
  else
    let clientIp := clientIpA req.headers
    let _topicId := getTopicIdForIP (jsOrStr env.ipTopicMap "") clientIp
    match resolveUserData req.body with
    | .error r => (r, 0)
    | .ok userData =>
      match userData with
      | none => (⟨400, some (obj1 "error" (.jstr "No data provided"))⟩, 0)
      | some v =>
        if !jsTruthy v then (⟨400, some (obj1 "error" (.jstr "No data provided"))⟩, 0)
        else
          let _message := formatMessageA v clientIp fmtTime nowIso nowMs
          match tg with
          | .netError m =>
            (⟨500, some (obj2 "error" (.jstr "Failed to send message to Telegram")
              "details" (.jstr (if m ≠ "" then m else "Network error")))⟩, 1)
          | .nonJson text =>
            (⟨500, some (obj2 "error" (.jstr "Failed to send message to Telegram")
              "details" (.jstr ("Telegram API returned non-JSON response: "
                ++ String.mk (text.data.take 200))))⟩, 1)
          | .jsonEmpty _ =>
            (⟨500, some (obj2 "error" (.jstr "Failed to send message to Telegram")
              "details" (.jstr "Empty response from Telegram API"))⟩, 1)
          | .json httpOk body =>
            if !httpOk || !fieldTruthy body "ok" then
              (⟨500, some (obj2 "error" (.jstr "Failed to send message to Telegram")
                "details" (detailsOf body))⟩, 1)
            else (⟨200, some (successBodyA body)⟩, 1)

/-- Outcome of the `sendMessage` fetch in part_001's `sendToTelegram`: a
successful JSON body, an error body (making `sendToTelegram` throw
`Telegram API error: ${description || statusText}`), or a thrown network
error. -/
inductive SendRespB where
  | ok (body : JsVal)
  | errJson (desc : Option String) (statusText : String)
  | netError (msg : String)
deriving Repr, DecidableEq

/-- All remote responses one part_001 invocation can consume. -/
structure HandlerBOracle where
  pages : Nat → Nat → Page
  create : CreateResp
  send : SendRespB

/-- `{ ...userData, ip_adresse }` (lines 350–352).  Spreading a primitive
contributes no fields (string indices are not modelled; no claim spreads a
string body). -/
def withIpAdresse (v : JsVal) (ip : String) : JsVal :=
  match v with
  | .jobj fs => .jobj (objSnoc fs "ip_adresse" (.jstr ip))
  | _ => obj1 "ip_adresse" (.jstr ip)
where
  objSnoc : JsObj → String → JsVal → JsObj
    | .nil, k, x => .cons k x .nil
    | .cons k2 v2 tl, k, x => .cons k2 v2 (objSnoc tl k x)

/-- The Variant B handler (`src/unnamed/part_001`, lines 293–367).  The
result is the response, the updated `ipToTopicMap` and the number of
outbound Telegram calls; `none` again means a find loop exhausted its
fuel. -/
def handlerB (env : Env) (req : Req) (st : IpMap) (o : HandlerBOracle)
    (fmtTime : JsVal → String) (nowMs : Int) (fuel : Nat) :
    Option (Resp × IpMap × Nat) :=
  if req.method = "OPTIONS" then some (⟨200, none⟩, st, 0)
  else if req.method ≠ "POST" then
    some (⟨405, some (obj1 "message" (.jstr "Kun POST er tillatt"))⟩, st, 0)
  else if !(envTruthy env.botToken && envTruthy env.chatId) then
    some (⟨500, some (obj1 "message"
      (.jstr "Serverfeil: TELEGRAM_BOT_TOKEN eller TELEGRAM_CHAT_ID er ikke satt i miljøvariabler"))⟩,
      st, 0)
  else
    match resolveUserData req.body with
    | .error r => some (r, st, 0)
    | .ok userData =>
      match userData with
      | none => some (⟨400, some (obj1 "error" (.jstr "No data provided"))⟩, st, 0)
      | some v =>
        if !jsTruthy v then
          some (⟨400, some (obj1 "error" (.jstr "No data provided"))⟩, st, 0)
        else
          let ip := ipAdresseB req.headers
          let isNew := (mapGet st ip).isNone
          match getOrCreateTopicForIP ⟨o.pages, o.create⟩ st ip fuel with
          | none => none
          | some (_, st2, c) =>
            let _message := formatTelegramMessage (withIpAdresse v ip) isNew fmtTime nowMs
            match o.send with
            | .ok _ =>
              some (⟨200, some (obj2 "message" (.jstr "Data sendt til Telegram!")
                "ip_adresse" (.jstr ip))⟩, st2, c.find + c.create + 1)
            | .errJson desc stx =>
              some (⟨500, some (obj1 "message"
                (.jstr ("Serverfeil: Telegram API error: " ++ jsOrStr desc stx)))⟩,
                st2, c.find + c.create + 1)
            | .netError m =>
              some (⟨500, some (obj1 "message" (.jstr ("Serverfeil: " ++ m)))⟩,
                st2, c.find + c.create + 1)

/-! ## C1 — Variant A hash derivation -/

/-- C1 counterexample: at the address `"toString"` with an empty override
table, the truthiness test `if (mappings[ip])` hits the inherited
`Object.prototype.toString`, and `getTopicIdForIP` returns that member —
not the hash-derived integer, and not an integer in [100000, 999999] at
all.  Any of the twelve `Object.prototype` member names behaves the same. -/
theorem c1_counterexample :
    getTopicIdForIP "" "toString" = TopicId.inherited "toString"
      ∧ getTopicIdForIP "" "toString" ≠ TopicId.num (hashTopicId "toString") := by
  decide

/-- C1 amended: for every address, the rolling hash (provably equal to the
spec's `hash*31 + charCode` 32-bit-wrapped form) taken `|·| % 900000
+ 100000` lies in [100000, 999999]; whenever the truthiness test on the
override table misses — which, with the prototype chain, excludes the twelve
`Object.prototype` member names — `getTopicIdForIP` returns exactly this
hash-derived ThreadId, and repeated calls on the same address agree.  For
an `Object.prototype` member name with no own entry the function instead
returns the inherited member (see the counterexample). -/
theorem c1_hash_topic_range (envMap ip : String) :
    (100000 ≤ hashTopicId ip ∧ hashTopicId ip ≤ 999999)
    ∧ rollHash ip.data = rollHashSpec ip.data
    ∧ (overrideMiss envMap ip = true →
        getTopicIdForIP envMap ip = .num (hashTopicId ip))
    ∧ getTopicIdForIP envMap ip = getTopicIdForIP envMap ip := by
  refine ⟨hashTopicId_range ip, rollHash_eq_spec ip.data, ?_, rfl⟩
  intro hmiss
  unfold overrideMiss at hmiss
  unfold getTopicIdForIP
  rcases hob : objReadProto (parseMappings envMap) ip with v | _ | _ | _
  · rw [hob] at hmiss
    have : v = 0 := by simpa using hmiss
    simp [hob, this]
  · simp [hob]
  · rw [hob] at hmiss
    simp at hmiss
  · simp [hob]

/-- Witness for the amended C1 at a concrete address and empty table. -/
theorem c1_hash_topic_range_witness :
    overrideMiss "" "203.0.113.7" = true
      ∧ getTopicIdForIP "" "203.0.113.7" = .num (hashTopicId "203.0.113.7") :=
  ⟨by decide, (c1_hash_topic_range "" "203.0.113.7").2.2.1 (by decide)⟩

/-! ## C2 — Variant A override table -/

/-- C2 counterexample: with override table `"1.2.3.4:0"`, the address
`"1.2.3.4"` is present as a key (with overridden id 0), yet the handler
returns the hash-derived id instead of the overridden one, because
`if (mappings[ip])` tests truthiness; and the entry `"__proto__:5"` is
never stored at all — the assignment hits the inherited `__proto__`
accessor and is a silent no-op, so the read returns `Object.prototype`
rather than the overridden id 5. -/
theorem c2_counterexample :
    objGet (parseMappings "1.2.3.4:0") "1.2.3.4" = some (some 0)
      ∧ getTopicIdForIP "1.2.3.4:0" "1.2.3.4" ≠ TopicId.num 0
      ∧ getTopicIdForIP "1.2.3.4:0" "1.2.3.4" = TopicId.num (hashTopicId "1.2.3.4")
      ∧ parseMappings "__proto__:5" = []
      ∧ getTopicIdForIP "__proto__:5" "__proto__" = TopicId.inherited "__proto__"
      ∧ getTopicIdForIP "__proto__:5" "__proto__" ≠ TopicId.num 5 := by
  decide

/-- C2 amended: for every address stored as an own key of the parsed
override table with a truthy numeric id — which excludes `__proto__`
entries, silently discarded by the inherited accessor, and entries parsed to
`0` or `NaN`, which fall through to the hash — `getTopicIdForIP` returns
exactly the overridden id, bypassing the hash. -/
theorem c2_override_returns_id (envMap ip : String) (v : Int)
    (h : objReadProto (parseMappings envMap) ip = .num v) (hv : v ≠ 0) :
    getTopicIdForIP envMap ip = .num v := by
  unfold getTopicIdForIP
  simp [h, hv]

/-- Witness for the amended C2 on a two-entry override table. -/
theorem c2_override_returns_id_witness :
    objReadProto (parseMappings "10.0.0.1:250, 1.2.3.4:777") "1.2.3.4" = .num 777
      ∧ getTopicIdForIP "10.0.0.1:250, 1.2.3.4:777" "1.2.3.4" = .num 777 :=
  ⟨by decide, c2_override_returns_id _ _ 777 (by decide) (by decide)⟩

/-! ## C3/C4 — Variant B cache and failure behaviour -/

lemma objGet_append_single {α : Type} (m : List (String × α)) (k a : String) (v : α) :
    objGet (m ++ [(k, v)]) a = if k == a then some v else objGet m a := by
  unfold objGet
  rw [List.reverse_append]
  by_cases h : k == a <;> simp [List.find?, h]

lemma mapGet_set_self (m : IpMap) (k : String) (v : Int) :
    mapGet (mapSet m k v) k = some v := by
  unfold mapGet mapSet
  rw [objGet_append_single]
  simp

lemma mapGet_set_other (m : IpMap) (k a : String) (v : Int) (h : ¬(k == a)) :
    mapGet (mapSet m k v) a = mapGet m a := by
  unfold mapGet mapSet
  rw [objGet_append_single]
  simp [h]

/-- Classification of the outcomes of `getOrCreateTopicForIP`: either the
map is returned unchanged (and a resolved id was the cached one), or the
address missed the cache and exactly the resolved id was appended for it. -/
lemma getOrCreate_shape (o : TgOracle) (st : IpMap) (ip : String) (fuel : Nat)
    (r : Option Int) (st2 : IpMap) (c : Counts)
    (h : getOrCreateTopicForIP o st ip fuel = some (r, st2, c)) :
    (st2 = st ∧ (r = none ∨ mapGet st ip = r))
      ∨ (mapGet st ip = none ∧ ∃ t : Int, r = some t ∧ st2 = mapSet st ip t) := by
  unfold getOrCreateTopicForIP at h
  rcases hget : mapGet st ip with _ | tid0
  · rw [hget] at h
    repeat' split at h
    all_goals try contradiction
    all_goals simp only [Option.some.injEq, Prod.mk.injEq] at h
    all_goals obtain ⟨rfl, rfl, rfl⟩ := h
    all_goals first
      | exact Or.inl ⟨rfl, Or.inl rfl⟩
      | exact Or.inr ⟨rfl, _, rfl, rfl⟩
  · rw [hget] at h
    simp only [Option.some.injEq, Prod.mk.injEq] at h
    obtain ⟨rfl, rfl, rfl⟩ := h
    exact Or.inl ⟨rfl, Or.inr rfl⟩

/-- Every branch of `getOrCreateTopicForIP` that resolves an id also leaves
it cached for the address. -/
lemma getOrCreate_success_caches (o : TgOracle) (st : IpMap) (ip : String) (fuel : Nat)
    (tid : Int) (st2 : IpMap) (c : Counts)
    (h : getOrCreateTopicForIP o st ip fuel = some (some tid, st2, c)) :
    mapGet st2 ip = some tid := by
  rcases getOrCreate_shape o st ip fuel (some tid) st2 c h with ⟨rfl, hr | hr⟩ | ⟨-, t, ht, rfl⟩
  · exact Option.noConfusion hr
  · exact hr
  · have htt : tid = t := by simpa using ht
    rw [← htt]
    exact mapGet_set_self st ip tid

/-- The only map mutation is `mapSet st ip t` on a miss for `ip`, so every
existing entry survives a resolution. -/
lemma getOrCreate_preserves (o : TgOracle) (st : IpMap) (ip : String) (fuel : Nat)
    (r : Option Int) (st2 : IpMap) (c : Counts)
    (h : getOrCreateTopicForIP o st ip fuel = some (r, st2, c))
    (a : String) (tid2 : Int) (ha : mapGet st a = some tid2) :
    mapGet st2 a = some tid2 := by
  rcases getOrCreate_shape o st ip fuel r st2 c h with ⟨rfl, -⟩ | ⟨hmiss, t, -, rfl⟩
  · exact ha
  · have hne : ¬(ip == a) := by
      intro hb
      rw [show ip = a from by simpa using hb, ha] at hmiss
      exact Option.noConfusion hmiss
    rw [mapGet_set_other st ip a t hne]
    exact ha

/-- C3 amended: entries of `ipToTopicMap` are never removed or changed: a
cached address resolves to its cached ThreadId with zero remote calls and no
map change, every resolution preserves all existing entries, and after any
successful resolution a second sequential resolution of the same address
returns the same ThreadId with zero remote find/create calls.  (If the first
resolution fell back to null, nothing was cached and a second request
repeats the remote work — see the counterexample.) -/
theorem c3_cache_stability (o : TgOracle) (st : IpMap) (ip : String) (fuel : Nat) :
    (∀ tid, mapGet st ip = some tid →
        getOrCreateTopicForIP o st ip fuel = some (some tid, st, ⟨0, 0⟩))
    ∧ (∀ r st2 c, getOrCreateTopicForIP o st ip fuel = some (r, st2, c) →
        ∀ a tid2, mapGet st a = some tid2 → mapGet st2 a = some tid2)
    ∧ (∀ tid st2 c, getOrCreateTopicForIP o st ip fuel = some (some tid, st2, c) →
        ∀ (o2 : TgOracle) (fuel2 : Nat),
          getOrCreateTopicForIP o2 st2 ip fuel2 = some (some tid, st2, ⟨0, 0⟩)) := by
  refine ⟨?_, ?_, ?_⟩
  · intro tid htid
    unfold getOrCreateTopicForIP
    simp [htid]
  · intro r st2 c h a tid2 ha
    exact getOrCreate_preserves o st ip fuel r st2 c h a tid2 ha
  · intro tid st2 c h o2 fuel2
    have hc := getOrCreate_success_caches o st ip fuel tid st2 c h
    unfold getOrCreateTopicForIP
    simp [hc]

/-- Witness for C3: a cached address resolves with no remote calls. -/
theorem c3_cache_stability_witness :
    getOrCreateTopicForIP ⟨fun _ _ => Page.notOk, .netError "x"⟩ [("9.9.9.9", 321)] "9.9.9.9" 0
      = some (some 321, [("9.9.9.9", 321)], ⟨0, 0⟩) :=
  (c3_cache_stability ⟨fun _ _ => Page.notOk, .netError "x"⟩ [("9.9.9.9", 321)] "9.9.9.9" 0).1
    321 (by decide)

/-- All find pages are empty: the remote knows no topics. -/
def emptyPages : Nat → Nat → Page := fun _ _ => .topics []

/-- C3 counterexample: two sequential resolutions of the same address in one
process do not reuse a ThreadId when the first one failed: the first create
attempt fails (network error), nothing is cached, and the second request
performs a second remote create call (create counter 1, not 0) and returns a
different ThreadId. -/
theorem c3_counterexample :
    getOrCreateTopicForIP ⟨emptyPages, .netError "fetch failed"⟩ [] "1.2.3.4" 1
        = some (none, [], ⟨1, 1⟩)
      ∧ getOrCreateTopicForIP ⟨emptyPages, .ok 42⟩ [] "1.2.3.4" 1
        = some (some 42, [("1.2.3.4", 42)], ⟨1, 1⟩)
      ∧ (some 42 : Option Int) ≠ none ∧ (1 : Nat) ≠ 0 := by
  decide

lemma findExisting_emptyPages (i : Nat) (ip : String) (n : Nat) :
    findExistingTopicForIP (emptyPages i) ip (n + 1) = some none := by
  unfold findExistingTopicForIP findLoop
  simp [emptyPages, pageSize]

/-- C4 counterexample: when the create error's description contains
`already exists` but its code is not 400 and the re-find still finds
nothing, the remote find is re-run twice (find counter 3 = one initial find
plus two re-finds), not once, before falling back to null. -/
theorem c4_counterexample :
    getOrCreateTopicForIP
        ⟨emptyPages, .err (some "message thread already exists") (some 420) "err"⟩
        [] "1.2.3.4" 1
      = some (none, [], ⟨3, 1⟩)
      ∧ (3 : Nat) - 1 ≠ 1 := by
  decide

/-- C4 amended: for every failing create outcome, `getOrCreateTopicForIP`
never propagates an error: it re-runs the remote find once — or twice when
the error indicates the thread already exists, the first re-find finds
nothing and the error code is not 400 — and, the find still yielding
nothing, returns null (map unchanged, exactly one create call, between one
and three find-loop invocations in total). -/
theorem c4_create_failure_degrades (cr : CreateResp) (st : IpMap) (ip : String) (fuel : Nat)
    (hmiss : mapGet st ip = none) (hfuel : 1 ≤ fuel) (hcr : ∀ tid, cr ≠ .ok tid) :
    ∃ c : Counts,
      getOrCreateTopicForIP ⟨emptyPages, cr⟩ st ip fuel = some (none, st, c)
        ∧ c.create = 1 ∧ 1 ≤ c.find ∧ c.find ≤ 3 := by
  obtain ⟨n, rfl⟩ : ∃ n, fuel = n + 1 := ⟨fuel - 1, by omega⟩
  have hfind : ∀ i, findExistingTopicForIP (emptyPages i) ip (n + 1) = some none :=
    fun i => findExisting_emptyPages i ip n
  have hcreate : ∃ e fc, createTopicForIP (emptyPages 1) cr ip (n + 1) = some (.error e, fc)
      ∧ fc ≤ 1 := by
    cases cr with
    | ok tid => exact absurd rfl (hcr tid)
    | netError m => exact ⟨m, 0, rfl, by omega⟩
    | err desc code stx =>
      by_cases hd : descHasExists desc = true
      · by_cases hc : code = some 400
        · exact ⟨topicsUnsupportedMsg, 1,
            by simp [createTopicForIP, hd, hfind 1, truthyId, hc], by omega⟩
        · exact ⟨"Kunne ikke opprette topic: " ++ jsOrStr desc stx, 1,
            by simp [createTopicForIP, hd, hfind 1, truthyId, hc], by omega⟩
      · by_cases hc : code = some 400
        · exact ⟨topicsUnsupportedMsg, 0, by simp [createTopicForIP, hd, hc], by omega⟩
        · exact ⟨"Kunne ikke opprette topic: " ++ jsOrStr desc stx, 0,
            by simp [createTopicForIP, hd, hc], by omega⟩
  obtain ⟨e, fc, hcr2, hfc⟩ := hcreate
  unfold getOrCreateTopicForIP
  simp only [hmiss, hfind, truthyId, hcr2]
  by_cases hb : (e != "" && strIncludes e "already exists") = true
  · refine ⟨⟨1 + fc + 1, 1⟩, ?_, rfl,
      by show 1 ≤ 1 + fc + 1; omega, by show 1 + fc + 1 ≤ 3; omega⟩
    simp [hb, hfind, truthyId]
  · refine ⟨⟨1 + fc, 1⟩, ?_, rfl,
      by show 1 ≤ 1 + fc; omega, by show 1 + fc ≤ 3; omega⟩
    simp [hb]

/-- Witness for the amended C4: a concrete failing create degrades to null
with the map unchanged. -/
theorem c4_create_failure_degrades_witness :
    ∃ c : Counts,
      getOrCreateTopicForIP ⟨emptyPages, .netError "fetch failed"⟩ [] "1.2.3.4" 1
        = some (none, [], c)
        ∧ c.create = 1 ∧ 1 ≤ c.find ∧ c.find ≤ 3 :=
  c4_create_failure_degrades (.netError "fetch failed") [] "1.2.3.4" 1 (by decide)
    (by decide) (fun tid h => CreateResp.noConfusion h)

/-! ## C9 — paging termination of the remote find -/

/-- A page satisfying one of the claim's stop conditions: fewer than
`pageSize` topics, a non-ok response, or a malformed result (a thrown fetch
also stops the loop, through the catch at line 72). -/
def stopPage : Page → Bool
  | .topics ts => ts.length < pageSize
  | _ => true

lemma findLoop_terminates (pg : Nat → Page) (nm : String) (k : Nat) :
    ∀ off fuel : Nat, stopPage (pg (off + pageSize * k)) = true → k + 1 ≤ fuel →
      ∃ r, findLoop pg nm fuel off = some r
        ∧ (r = none ∨ ∃ j ts t, j ≤ k ∧ pg (off + pageSize * j) = Page.topics ts
            ∧ t ∈ ts ∧ t.name = nm ∧ r = some t.threadId) := by
  induction k with
  | zero =>
    intro off fuel hstop hfuel
    obtain ⟨m, rfl⟩ : ∃ m, fuel = m + 1 := ⟨fuel - 1, by omega⟩
    cases hpg : pg off with
    | netError => exact ⟨none, by simp [findLoop, hpg], Or.inl rfl⟩
    | notOk => exact ⟨none, by simp [findLoop, hpg], Or.inl rfl⟩
    | malformed => exact ⟨none, by simp [findLoop, hpg], Or.inl rfl⟩
    | topics ts =>
      rcases hf : ts.find? (fun t => t.name == nm) with _ | t
      · have hlen : ts.length < pageSize := by
          have := hstop
          rw [show off + pageSize * 0 = off by ring, hpg] at this
          simpa [stopPage] using this
        exact ⟨none, by simp [findLoop, hpg, hf, hlen], Or.inl rfl⟩
      · refine ⟨some t.threadId, by simp [findLoop, hpg, hf], Or.inr ⟨0, ts, t, ?_⟩⟩
        refine ⟨by omega, by rw [show off + pageSize * 0 = off by ring]; exact hpg,
          List.mem_of_find?_eq_some hf, ?_, rfl⟩
        simpa using List.find?_some hf
  | succ k ih =>
    intro off fuel hstop hfuel
    obtain ⟨m, rfl⟩ : ∃ m, fuel = m + 1 := ⟨fuel - 1, by omega⟩
    cases hpg : pg off with
    | netError => exact ⟨none, by simp [findLoop, hpg], Or.inl rfl⟩
    | notOk => exact ⟨none, by simp [findLoop, hpg], Or.inl rfl⟩
    | malformed => exact ⟨none, by simp [findLoop, hpg], Or.inl rfl⟩
    | topics ts =>
      rcases hf : ts.find? (fun t => t.name == nm) with _ | t
      · by_cases hlen : ts.length < pageSize
        · exact ⟨none, by simp [findLoop, hpg, hf, hlen], Or.inl rfl⟩
        · have hstop2 : stopPage (pg (off + pageSize + pageSize * k)) = true := by
            rw [show off + pageSize + pageSize * k = off + pageSize * (k + 1) by ring]
            exact hstop
          obtain ⟨r, hr, hp⟩ := ih (off + pageSize) m hstop2 (by omega)
          refine ⟨r, by simp [findLoop, hpg, hf, hlen, hr], ?_⟩
          rcases hp with rfl | ⟨j, ts2, t, hj, hpg2, htm, htn, rfl⟩
          · exact Or.inl rfl
          · refine Or.inr ⟨j + 1, ts2, t, by omega, ?_, htm, htn, rfl⟩
            rw [show off + pageSize * (j + 1) = off + pageSize + pageSize * j by ring]
            exact hpg2
      · refine ⟨some t.threadId, by simp [findLoop, hpg, hf], Or.inr ⟨0, ts, t, ?_⟩⟩
        refine ⟨by omega, by rw [show off + pageSize * 0 = off by ring]; exact hpg,
          List.mem_of_find?_eq_some hf, ?_, rfl⟩
        simpa using List.find?_some hf

/-- C9: the find loop pages with page size 100, raising the offset by 100
each round; if the page at offset `100 * k` satisfies a stop condition, a
fuel budget of `k + 1` iterations already suffices, and the result is either
the thread id of a topic named `"IP: " ++ ip` found on some visited page, or
null. -/
theorem c9_paging_terminates (pg : Nat → Page) (ip : String) (k fuel : Nat)
    (hstop : stopPage (pg (pageSize * k)) = true) (hfuel : k + 1 ≤ fuel) :
    ∃ r, findExistingTopicForIP pg ip fuel = some r
      ∧ (r = none ∨ ∃ j ts t, j ≤ k ∧ pg (pageSize * j) = Page.topics ts
          ∧ t ∈ ts ∧ t.name = "IP: " ++ ip ∧ r = some t.threadId) := by
  have hmain := findLoop_terminates pg ("IP: " ++ ip) k 0 fuel
    (by simpa using hstop) hfuel
  simpa [findExistingTopicForIP] using hmain

/-- A remote with a single matching topic on its only page. -/
def onePage : Nat → Page :=
  fun off => if off = 0 then Page.topics [⟨"IP: 7.7.7.7", 55⟩] else Page.malformed

/-- Witness for C9 on a one-page remote. -/
theorem c9_paging_terminates_witness :
    stopPage (onePage (pageSize * 0)) = true
      ∧ ∃ r, findExistingTopicForIP onePage "7.7.7.7" 1 = some r
        ∧ (r = none ∨ ∃ j ts t, j ≤ 0 ∧ onePage (pageSize * j) = Page.topics ts
            ∧ t ∈ ts ∧ t.name = "IP: " ++ "7.7.7.7" ∧ r = some t.threadId) :=
  ⟨by decide, c9_paging_terminates onePage "7.7.7.7" 0 1 (by decide) (by decide)⟩

/-! ## C7 — client address derivation -/

/-- Truthiness of a possibly-absent header string. -/
def optTruthy : Option String → Bool
  | none => false
  | some s => s != ""

/-- Both sentinels are unreachable when the fallback chain hits earlier. -/
lemma ipFallback_sentinel_free (h : Headers) (s1 s2 : String)
    (hr : optTruthy h.xRealIp = true
      ∨ (optTruthy h.xRealIp = false ∧ optTruthy h.remoteAddress = true)) :
    ipFallback h s1 = ipFallback h s2 := by
  unfold ipFallback
  rcases hx : h.xRealIp with _ | r
  · rcases ha : h.remoteAddress with _ | a
    · rcases hr with hr | ⟨-, hr⟩ <;> simp [optTruthy, hx, ha] at hr
    · rcases hr with hr | ⟨-, hr⟩
      · simp [optTruthy, hx] at hr
      · have : a ≠ "" := by simpa [optTruthy, ha] using hr
        simp [this]
  · rcases hr with hr | ⟨hr1, hr2⟩
    · have : r ≠ "" := by simpa [optTruthy, hx] using hr
      simp [this]
    · have hre : r = "" := by simpa [optTruthy, hx] using hr1
      rcases ha : h.remoteAddress with _ | a
      · simp [optTruthy, ha] at hr2
      · have : a ≠ "" := by simpa [optTruthy, ha] using hr2
        simp [hre, this]

/-- C7 counterexample: with no headers at all, the ip endpoint and Variant A
yield `"unknown"` while Variant B yields `"Ukjent IP"`; and with a
forwarded-for header whose first entry is blank, Variant A falls through to
`x-real-ip` while Variant B returns the empty string — so the three handlers
do not all derive the address the same way. -/
theorem c7_counterexample :
    (ipOfIpEndpoint ⟨none, none, none⟩ = "unknown"
      ∧ ipAdresseB ⟨none, none, none⟩ = "Ukjent IP"
      ∧ ipAdresseB ⟨none, none, none⟩ ≠ ipOfIpEndpoint ⟨none, none, none⟩)
    ∧ (clientIpA ⟨some " ,5.6.7.8", some "9.9.9.9", none⟩ = "9.9.9.9"
      ∧ ipAdresseB ⟨some " ,5.6.7.8", some "9.9.9.9", none⟩ = ""
      ∧ ipAdresseB ⟨some " ,5.6.7.8", some "9.9.9.9", none⟩
          ≠ clientIpA ⟨some " ,5.6.7.8", some "9.9.9.9", none⟩) := by
  decide

/-- C7 amended: the `/ip` endpoint and Variant A derive the address
identically (trimmed first forwarded-for value when truthy, else
`x-real-ip`, else the remote address, else `"unknown"`); Variant B agrees
with them whenever the trimmed first forwarded-for value is nonempty, and
whenever the forwarded-for header is absent or empty and one of the two
fallback headers is nonempty — it differs only in returning a blank trimmed
value as-is and in its sentinel `"Ukjent IP"`. -/
theorem c7_derivations (h : Headers) :
    ipOfIpEndpoint h = clientIpA h
    ∧ (∀ s, h.xff = some s → firstForwarded s ≠ "" → ipAdresseB h = clientIpA h)
    ∧ (optTruthy h.xff = false →
        (optTruthy h.xRealIp = true
          ∨ (optTruthy h.xRealIp = false ∧ optTruthy h.remoteAddress = true)) →
        ipAdresseB h = clientIpA h) := by
  refine ⟨rfl, ?_, ?_⟩
  · intro s hs hne
    have hsne : s ≠ "" := by
      intro h0
      rw [h0] at hne
      exact hne (by decide)
    unfold ipAdresseB clientIpA
    rw [hs]
    simp [hsne, hne]
  · intro hxff hr
    rcases hx : h.xff with _ | s
    · unfold ipAdresseB clientIpA
      rw [hx]
      exact ipFallback_sentinel_free h _ _ hr
    · have hse : s = "" := by simpa [optTruthy, hx] using hxff
      subst hse
      unfold ipAdresseB clientIpA
      rw [hx]
      simp only [ne_eq, not_true_eq_false, if_false]
      rw [show firstForwarded "" = "" from by decide]
      simpa using ipFallback_sentinel_free h _ _ hr

/-- Witness for the amended C7 on a concrete two-entry forwarded-for
header. -/
theorem c7_derivations_witness :
    ipOfIpEndpoint ⟨some "1.2.3.4, 9.9.9.9", none, none⟩
        = clientIpA ⟨some "1.2.3.4, 9.9.9.9", none, none⟩
      ∧ ipAdresseB ⟨some "1.2.3.4, 9.9.9.9", none, none⟩
        = clientIpA ⟨some "1.2.3.4, 9.9.9.9", none, none⟩ :=
  ⟨(c7_derivations _).1, (c7_derivations _).2.1 "1.2.3.4, 9.9.9.9" rfl (by decide)⟩

/-! ## C5/C6 — formatter output claims -/

lemma str_empty_append (s : String) : "" ++ s = s :=
  String.ext (by rw [string_data_append]; rfl)

/-- C5 counterexample: for a body with the unrecognized action
`custom_event`, Variant B's formatter emits the action string but not the
serialized form of the payload. -/
theorem c5_counterexample :
    Contains
        (formatTelegramMessage (.jobj (.cons "action" (.jstr "custom_event") .nil)) false
          (fun _ => "TID") 0)
        "custom_event"
      ∧ ¬ Contains
          (formatTelegramMessage (.jobj (.cons "action" (.jstr "custom_event") .nil)) false
            (fun _ => "TID") 0)
          (jsonStringify (.jobj (.cons "action" (.jstr "custom_event") .nil))) := by
  decide

/-- C5 amended: for every body whose action is an unrecognized nonempty
string, Variant A's formatter emits both the literal action string and the
`JSON.stringify` serialization of the whole payload; Variant B's formatter
emits the literal action string but omits the serialized payload (see the
counterexample). -/
theorem c5_unknown_action (v : JsVal) (s clientIp nowIso : String)
    (ft ftB : JsVal → String) (nowMs nowMs2 : Int)
    (haction : getField v "action" = some (.jstr s))
    (hmem : s ∉ recognizedActions) (hne : s ≠ "") :
    Contains (formatMessageA v clientIp ft nowIso nowMs) s
      ∧ Contains (formatMessageA v clientIp ft nowIso nowMs) (jsonStringify v)
      ∧ Contains (formatTelegramMessage v false ftB nowMs2) s := by
  simp only [recognizedActions, List.mem_cons, List.not_mem_nil, or_false] at hmem
  push_neg at hmem
  obtain ⟨h1, h2, h3, h4, h5, h6, h7, h8, h9, h10⟩ := hmem
  refine ⟨?_, ?_, ?_⟩
  · simp +decide [formatMessageA, haction, jsOrVal, jsTruthy, fieldOrNA, jsDisplay, hne,
      h1, h2, h3, h4, h5, h6, h7, h8, h9, h10]
    apply contains_append_left
    apply contains_append_left
    apply contains_append_left
    apply contains_append_left
    apply contains_append_left
    exact contains_append_self _ _
  · simp +decide [formatMessageA, haction, jsOrVal, jsTruthy, fieldOrNA, jsDisplay, hne,
      h1, h2, h3, h4, h5, h6, h7, h8, h9, h10]
    apply contains_append_left
    apply contains_append_left
    apply contains_append_left
    exact contains_append_self _ _
  · simp +decide [formatTelegramMessage, haction, jsOrVal, jsTruthy, fieldOrNA, jsDisplay,
      hne, str_empty_append, h1, h2, h3, h4, h5, h6, h7, h8, h9, h10]
    apply contains_append_left
    apply contains_append_left
    apply contains_append_left
    apply contains_append_left
    apply contains_append_left
    exact contains_append_self _ _

/-- Witness for the amended C5 at a concrete unrecognized action. -/
theorem c5_unknown_action_witness :
    Contains
        (formatMessageA (.jobj (.cons "action" (.jstr "custom_event") .nil)) "1.2.3.4"
          (fun _ => "TID") "ISO" 0)
        "custom_event"
      ∧ Contains
          (formatMessageA (.jobj (.cons "action" (.jstr "custom_event") .nil)) "1.2.3.4"
            (fun _ => "TID") "ISO" 0)
          (jsonStringify (.jobj (.cons "action" (.jstr "custom_event") .nil)))
      ∧ Contains
          (formatTelegramMessage (.jobj (.cons "action" (.jstr "custom_event") .nil)) false
            (fun _ => "TID") 0)
          "custom_event" :=
  c5_unknown_action (.jobj (.cons "action" (.jstr "custom_event") .nil)) "custom_event"
    "1.2.3.4" "ISO" (fun _ => "TID") (fun _ => "TID") 0 0 rfl (by decide) (by decide)

/-- C6 counterexample: for `auth_method_selected` with `auth_method` absent,
both formatters render the slot as `Bank App`, not as the `N/A` placeholder;
and Variant B omits the attempt-number and remaining-attempts lines of
`pin_attempt_failed` entirely instead of substituting `N/A`. -/
theorem c6_counterexample :
    Contains
        (formatMessageA (.jobj (.cons "action" (.jstr "auth_method_selected") .nil))
          "1.2.3.4" (fun _ => "TID") "ISO" 0)
        "*Metode:* Bank App"
      ∧ ¬ Contains
          (formatMessageA (.jobj (.cons "action" (.jstr "auth_method_selected") .nil))
            "1.2.3.4" (fun _ => "TID") "ISO" 0)
          "*Metode:* N/A"
      ∧ ¬ Contains
          (formatTelegramMessage (.jobj (.cons "action" (.jstr "pin_attempt_failed") .nil))
            false (fun _ => "TID") 0)
          "Forsøk #"
      ∧ ¬ Contains
          (formatTelegramMessage (.jobj (.cons "action" (.jstr "pin_attempt_failed") .nil))
            false (fun _ => "TID") 0)
          "Gjenstående" := by
  decide

/-- C6 amended: for every recognized action and every body with the bank
field absent, both formatters substitute the `N/A` placeholder into the bank
slot; fields interpolated through `|| 'N/A'` behave likewise, with two
exceptions forced by the code: an absent `auth_method` renders as
`Bank App`, and Variant B omits the attempt-number/remaining-attempts lines
when absent; and for every recognized action the all-fields-absent outputs
of both formatters never contain the string `undefined`. -/
theorem c6_missing_fields (v : JsVal) (a clientIp nowIso : String)
    (ft ftB : JsVal → String) (nowMs nowMs2 : Int)
    (ha : a ∈ recognizedActions) (haction : getField v "action" = some (.jstr a))
    (hbank : getField v "bank" = none) :
    Contains (formatMessageA v clientIp ft nowIso nowMs) "*Bank:* N/A"
      ∧ Contains (formatTelegramMessage v false ftB nowMs2) "<b>Bank:</b> N/A"
      ∧ (a = "auth_method_selected" → getField v "auth_method" = none →
          Contains (formatMessageA v clientIp ft nowIso nowMs) "*Metode:* Bank App"
            ∧ Contains (formatTelegramMessage v false ftB nowMs2) "<b>Metode:</b> Bank App")
      ∧ (recognizedActions.all fun act =>
          !strIncludes
              (formatMessageA (obj1 "action" (.jstr act)) "ip0" (fun _ => "tid") "iso" 0)
              "undefined"
            && !strIncludes
              (formatTelegramMessage
                (obj2 "action" (.jstr act) "ip_adresse" (.jstr "ip0")) false
                (fun _ => "tid") 0)
              "undefined") = true := by
  refine ⟨?_, ?_, ?_, by decide⟩
  · simp only [recognizedActions, List.mem_cons, List.not_mem_nil, or_false] at ha
    rcases ha with rfl | rfl | rfl | rfl | rfl | rfl | rfl | rfl | rfl | rfl
    all_goals simp +decide [formatMessageA, haction, jsOrVal, jsTruthy, fieldOrNA, hbank]
    all_goals repeat apply contains_append_left
    all_goals decide
  · simp only [recognizedActions, List.mem_cons, List.not_mem_nil, or_false] at ha
    rcases ha with rfl | rfl | rfl | rfl | rfl | rfl | rfl | rfl | rfl | rfl
    all_goals simp +decide [formatTelegramMessage, haction, jsOrVal, jsTruthy, fieldOrNA,
      hbank, str_empty_append]
    all_goals repeat apply contains_append_left
    all_goals decide
  · intro haeq hauth
    subst haeq
    constructor
    · simp +decide [formatMessageA, haction, jsOrVal, jsTruthy, fieldOrNA, hbank, hauth]
      repeat apply contains_append_left
      decide
    · simp +decide [formatTelegramMessage, haction, jsOrVal, jsTruthy, fieldOrNA, hbank,
        hauth, str_empty_append]
      repeat apply contains_append_left
      decide

/-- Witness for the amended C6 at a concrete bank-less body. -/
theorem c6_missing_fields_witness :
    Contains
        (formatMessageA (.jobj (.cons "action" (.jstr "phone_entered") .nil)) "1.2.3.4"
          (fun _ => "TID") "ISO" 0)
        "*Bank:* N/A"
      ∧ Contains
          (formatTelegramMessage (.jobj (.cons "action" (.jstr "phone_entered") .nil)) false
            (fun _ => "TID") 0)
          "<b>Bank:</b> N/A" :=
  ⟨(c6_missing_fields (.jobj (.cons "action" (.jstr "phone_entered") .nil)) "phone_entered"
      "1.2.3.4" "ISO" (fun _ => "TID") (fun _ => "TID") 0 0 (by decide) rfl rfl).1,
   (c6_missing_fields (.jobj (.cons "action" (.jstr "phone_entered") .nil)) "phone_entered"
      "1.2.3.4" "ISO" (fun _ => "TID") (fun _ => "TID") 0 0 (by decide) rfl rfl).2.1⟩

/-! ## C8 — missing configuration -/

/-- C8: for every POST request handled while the bot token or the chat id is
unset (or empty), both handlers respond 500 with their configuration-specific
error body, and the outbound-call counter stays at zero. -/
theorem c8_missing_config (env : Env) (req : Req) (ft ftB : JsVal → String)
    (nowIso : String) (nowMs nowMs2 : Int) (tg : SendRespA) (st : IpMap)
    (o : HandlerBOracle) (fuel : Nat)
    (hpost : req.method = "POST")
    (hcfg : envTruthy env.botToken = false ∨ envTruthy env.chatId = false) :
    handlerA env req ft nowIso nowMs tg
      = (⟨500, some (obj2 "error" (.jstr "Telegram credentials not configured")
          "message"
          (.jstr "TELEGRAM_BOT_TOKEN and TELEGRAM_CHAT_ID must be set in environment variables"))⟩,
         0)
    ∧ handlerB env req st o ftB nowMs2 fuel
      = some (⟨500, some (obj1 "message"
          (.jstr "Serverfeil: TELEGRAM_BOT_TOKEN eller TELEGRAM_CHAT_ID er ikke satt i miljøvariabler"))⟩,
          st, 0) := by
  have hc : (!(envTruthy env.botToken && envTruthy env.chatId)) = true := by
    rcases hcfg with h | h <;> simp [h]
  constructor
  · simp +decide [handlerA, hpost, hc]
  · simp +decide [handlerB, hpost, hc]

/-- Witness for C8 with an unset bot token. -/
theorem c8_missing_config_witness :
    handlerA ⟨none, some "chat", none⟩ ⟨"POST", ⟨none, none, none⟩, .absent⟩
        (fun _ => "TID") "ISO" 0 (.netError "x")
      = (⟨500, some (obj2 "error" (.jstr "Telegram credentials not configured")
          "message"
          (.jstr "TELEGRAM_BOT_TOKEN and TELEGRAM_CHAT_ID must be set in environment variables"))⟩,
         0)
    ∧ handlerB ⟨none, some "chat", none⟩ ⟨"POST", ⟨none, none, none⟩, .absent⟩ []
        ⟨emptyPages, .netError "x", .netError "x"⟩ (fun _ => "TID") 0 1
      = some (⟨500, some (obj1 "message"
          (.jstr "Serverfeil: TELEGRAM_BOT_TOKEN eller TELEGRAM_CHAT_ID er ikke satt i miljøvariabler"))⟩,
          [], 0) :=
  c8_missing_config ⟨none, some "chat", none⟩ ⟨"POST", ⟨none, none, none⟩, .absent⟩
    (fun _ => "TID") (fun _ => "TID") "ISO" 0 0 (.netError "x") []
    ⟨emptyPages, .netError "x", .netError "x"⟩ 1 rfl (Or.inl rfl)

/-! ## C10 — falsy JSON bodies -/

/-- C10: for every POST request whose body is one of the raw JSON texts
`"0"`, `"false"`, `"null"` or `"\"\""` — non-empty, syntactically valid
JSON parsing to a falsy value — both handlers (with configuration present)
respond 400 with the error `No data provided`, leaving Variant B's map
untouched and making no outbound call. -/
theorem c10_falsy_bodies (env : Env) (headers : Headers) (ft ftB : JsVal → String)
    (nowIso : String) (nowMs nowMs2 : Int) (tg : SendRespA) (st : IpMap)
    (o : HandlerBOracle) (fuel : Nat) (s : String)
    (hs : s = "0" ∨ s = "false" ∨ s = "null" ∨ s = "\"\"")
    (htok : envTruthy env.botToken = true) (hchat : envTruthy env.chatId = true) :
    handlerA env ⟨"POST", headers, .raw s⟩ ft nowIso nowMs tg
      = (⟨400, some (obj1 "error" (.jstr "No data provided"))⟩, 0)
    ∧ handlerB env ⟨"POST", headers, .raw s⟩ st o ftB nowMs2 fuel
      = some (⟨400, some (obj1 "error" (.jstr "No data provided"))⟩, st, 0) := by
  have hparse : ∃ v, jsonParse s = some v ∧ jsTruthy v = false := by
    rcases hs with rfl | rfl | rfl | rfl
    · exact ⟨.jnum 0, by decide, by decide⟩
    · exact ⟨.jbool false, by decide, by decide⟩
    · exact ⟨.jnull, by decide, by decide⟩
    · exact ⟨.jstr "", by decide, by decide⟩
  obtain ⟨v, hv, hfv⟩ := hparse
  constructor
  · simp +decide [handlerA, htok, hchat, resolveUserData, hv, hfv]
  · simp +decide [handlerB, htok, hchat, resolveUserData, hv, hfv]

/-- Witness for C10 at the body `"0"`. -/
theorem c10_falsy_bodies_witness :
    handlerA ⟨some "tok", some "chat", none⟩ ⟨"POST", ⟨none, none, none⟩, .raw "0"⟩
        (fun _ => "TID") "ISO" 0 (.netError "x")
      = (⟨400, some (obj1 "error" (.jstr "No data provided"))⟩, 0)
    ∧ handlerB ⟨some "tok", some "chat", none⟩ ⟨"POST", ⟨none, none, none⟩, .raw "0"⟩ []
        ⟨emptyPages, .netError "x", .netError "x"⟩ (fun _ => "TID") 0 1
      = some (⟨400, some (obj1 "error" (.jstr "No data provided"))⟩, [], 0) :=
  c10_falsy_bodies ⟨some "tok", some "chat", none⟩ ⟨none, none, none⟩
    (fun _ => "TID") (fun _ => "TID") "ISO" 0 0 (.netError "x") []
    ⟨emptyPages, .netError "x", .netError "x"⟩ 1 "0" (Or.inl rfl) rfl rfl

end Twii
